import Mathlib

/-!
Shallow embedding of the identity-and-access-control subsystem of the
cashly-pos-system Go backend (package `auth`, `services`), for checking the
natural-language specification against the code.

Modelling conventions:
* Go `time.Time` instants and `time.Duration` values are modelled as `Nat`
  seconds (the code only ever adds whole hours/days and compares with
  `Before`).
* UUIDs are opaque strings; `uuid.New()` is nondeterministic in Go, so fresh
  ids are passed in as explicit arguments; `uuid.Parse` on ids produced this
  way always succeeds and is modelled as total.
* HMAC-SHA256 signing (jwt.SigningMethodHS256) is modelled symbolically: the
  tag over a claims payload is the pair (key, claims), so a tag verifies under
  key `k` for claims `c` exactly when it was produced with `k` over `c` —
  the standard ideal-MAC reading.
* bcrypt (golang.org/x/crypto/bcrypt) is modelled symbolically.
  `GenerateFromPassword` rejects passwords longer than 72 bytes with
  `ErrPasswordTooLong` (x/crypto ≥ v0.1.0; this module set depends on
  golang-jwt/jwt/v5 and so cannot resolve an older x/crypto).  The bcrypt
  key-derivation itself uses at most the first 72 bytes of the password, so
  the stored digest is determined by the cost, the salt and the truncated
  password, and `CompareHashAndPassword` — which has no length check —
  succeeds exactly when the truncated passwords coincide.
* Strings are compared as Lean `String`s; Go's `len` counts bytes, which for
  the ASCII inputs of every property below coincides with the character count.
-/

namespace Cashly

/-! ## JWT layer (`pkg/auth/jwt.go`, `JWTManager`) -/

/-- The JWT claims structure (`auth.Claims`): custom fields plus the
registered claims the Go code sets (`ID`, `ExpiresAt`, `IssuedAt`,
`NotBefore`; `Issuer`/`Subject` carry no behaviour here). -/
structure Claims where
  userID : String
  email : String
  role : String
  name : String
  tokenType : String
  jti : String
  expiresAt : Nat
  issuedAt : Nat
  notBefore : Nat
  deriving DecidableEq, Repr

/-- A signed JWT: the claims payload plus the HMAC tag over it.  The tag of an
honestly signed token is `(signingKey, claims)` (ideal-MAC model). -/
structure Token where
  claims : Claims
  tag : String × Claims
  deriving DecidableEq, Repr

/-- `auth.JWTManager`: signing key plus the two TTLs.  `NewJWTManager`
converts hours/days to durations; here both TTLs are stored in seconds. -/
structure JWTManager where
  secretKey : String
  accessTokenTTL : Nat
  refreshTokenTTL : Nat
  deriving Repr

/-- `auth.NewJWTManager secretKey accessTTLHours refreshTTLDays`. -/
def NewJWTManager (secretKey : String) (accessTTLHours refreshTTLDays : Nat) :
    JWTManager :=
  { secretKey := secretKey
    accessTokenTTL := accessTTLHours * 3600
    refreshTokenTTL := refreshTTLDays * 24 * 3600 }

/-- Validation outcomes of `JWTManager.ValidateToken` and its two wrappers;
each constructor is one distinct `error` value of the Go code or of the
jwt/v5 library. -/
inductive JwtErr where
  /-- jwt/v5: signature verification failed (`ErrTokenSignatureInvalid`). -/
  | invalidSignature
  /-- jwt/v5 claims validation: `ErrTokenExpired` (`exp` not after `now`). -/
  | libExpired
  /-- jwt/v5 claims validation: `ErrTokenNotValidYet` (`now` before `nbf`). -/
  | notValidYet
  /-- the manual check: `errors.New "token has expired"`. -/
  | manualExpired
  /-- `errors.New "invalid token type, expected access token"`. -/
  | notAccessType
  /-- `errors.New "invalid token type, expected refresh token"`. -/
  | notRefreshType
  deriving DecidableEq, Repr

/-- `JWTManager.GenerateAccessToken`: claims with `TokenType = "access"`,
`exp = now + accessTokenTTL`, `iat = nbf = now`, signed with the manager's
key.  `tokenID` stands for the random unique id. -/
def JWTManager.GenerateAccessToken (j : JWTManager)
    (userID email role name tokenID : String) (now : Nat) : Token :=
  let c : Claims :=
    { userID := userID, email := email, role := role, name := name
      tokenType := "access", jti := tokenID
      expiresAt := now + j.accessTokenTTL, issuedAt := now, notBefore := now }
  { claims := c, tag := (j.secretKey, c) }

/-- `JWTManager.GenerateRefreshToken`: claims with `TokenType = "refresh"`,
`exp = now + refreshTokenTTL`, empty role/name, signed with the key. -/
def JWTManager.GenerateRefreshToken (j : JWTManager)
    (userID email tokenID : String) (now : Nat) : Token :=
  let c : Claims :=
    { userID := userID, email := email, role := "", name := ""
      tokenType := "refresh", jti := tokenID
      expiresAt := now + j.refreshTokenTTL, issuedAt := now, notBefore := now }
  { claims := c, tag := (j.secretKey, c) }

/-- `JWTManager.ValidateToken`: `jwt.ParseWithClaims` verifies the signature
first, then (claims validation, jwt/v5 default validator) rejects unless
`now < exp`, then rejects if `now < nbf`; on success the Go wrapper re-checks
expiry manually (`claims.ExpiresAt.Time.Before(time.Now())`). -/
def JWTManager.ValidateToken (j : JWTManager) (t : Token) (now : Nat) :
    Except JwtErr Claims :=
  if t.tag ≠ (j.secretKey, t.claims) then .error .invalidSignature
  else if ¬ now < t.claims.expiresAt then .error .libExpired
  else if now < t.claims.notBefore then .error .notValidYet
  else if t.claims.expiresAt < now then .error .manualExpired
  else .ok t.claims

/-- `JWTManager.ValidateAccessToken`: `ValidateToken`, then require
`TokenType = "access"`. -/
def JWTManager.ValidateAccessToken (j : JWTManager) (t : Token) (now : Nat) :
    Except JwtErr Claims := do
  let claims ← j.ValidateToken t now
  if claims.tokenType ≠ "access" then .error .notAccessType
  else pure claims

/-- `JWTManager.ValidateRefreshToken`: `ValidateToken`, then require
`TokenType = "refresh"`. -/
def JWTManager.ValidateRefreshToken (j : JWTManager) (t : Token) (now : Nat) :
    Except JwtErr Claims := do
  let claims ← j.ValidateToken t now
  if claims.tokenType ≠ "refresh" then .error .notRefreshType
  else pure claims

/-! ## bcrypt and the password layer (`pkg/auth/password.go`) -/

/-- The bcrypt key-derivation uses at most the first 72 bytes of the
password; the remainder is ignored by the algorithm. -/
def bcryptKey (password : String) : List Char :=
  password.toList.take 72

/-- A bcrypt digest string `$2a$cost$salt.digest`: the digest part is a
one-way function of (cost, salt, truncated password), modelled ideally as
that triple itself. -/
structure BcryptHash where
  cost : Nat
  salt : Nat
  digest : List Char
  deriving DecidableEq, Repr

/-- `bcrypt.GenerateFromPassword(password, cost)` with the salt drawn from
the CSPRNG passed explicitly; passwords longer than 72 bytes are rejected
with `ErrPasswordTooLong`. -/
def bcryptGenerateFromPassword (password : String) (cost salt : Nat) :
    Except String BcryptHash :=
  if password.length > 72 then
    .error "bcrypt: password length exceeds 72 bytes"
  else
    .ok { cost := cost, salt := salt, digest := bcryptKey password }

/-- `bcrypt.CompareHashAndPassword(hash, password)` re-derives the digest
with the stored cost and salt and compares constant-time; it succeeds exactly
when the truncated passwords coincide.  `true` models a `nil` error. -/
def bcryptCompareHashAndPassword (hash : BcryptHash) (password : String) :
    Bool :=
  hash.digest = bcryptKey password

/-- `bcrypt.DefaultCost`. -/
def bcryptDefaultCost : Nat := 10

/-- `auth.PasswordManager`. -/
structure PasswordManager where
  saltRounds : Nat
  deriving Repr

/-- `auth.NewPasswordManager`: below 10 rounds falls back to 12. -/
def NewPasswordManager (saltRounds : Nat) : PasswordManager :=
  if saltRounds < 10 then { saltRounds := 12 } else { saltRounds := saltRounds }

/-- The character class of the regex `[A-Z]`. -/
def isUpperAZ (c : Char) : Bool := 'A' ≤ c ∧ c ≤ 'Z'

/-- The character class of the regex `[a-z]`. -/
def isLowerAZ (c : Char) : Bool := 'a' ≤ c ∧ c ≤ 'z'

/-- The character class of the regex `[0-9]`. -/
def isDigit09 (c : Char) : Bool := '0' ≤ c ∧ c ≤ '9'

/-- The special-character class of the regex
`[!@#$%^&*()_+\-=\[\]{};':"\\|,.<>\/?]` (`\x7b`/`\x7d` are the braces,
`\x27` the apostrophe). -/
def specialChars : List Char :=
  "!@#$%^&*()_+-=[]\x7b\x7d;\x27:\"\\|,.<>/?".toList

/-- `PasswordManager.ValidatePassword`: length bounds then the four class
checks, in source order, each with its own error message. -/
def PasswordManager.ValidatePassword (_pm : PasswordManager)
    (password : String) : Except String Unit :=
  if password.length < 8 then
    .error "password must be at least 8 characters long"
  else if password.length > 128 then
    .error "password must be less than 128 characters long"
  else if ¬ password.toList.any isUpperAZ then
    .error "password must contain at least one uppercase letter"
  else if ¬ password.toList.any isLowerAZ then
    .error "password must contain at least one lowercase letter"
  else if ¬ password.toList.any isDigit09 then
    .error "password must contain at least one number"
  else if ¬ password.toList.any (fun c => specialChars.contains c) then
    .error "password must contain at least one special character"
  else .ok ()

/-- `PasswordManager.HashPassword`: validate strength, then bcrypt with the
manager's cost (fresh salt passed explicitly); a bcrypt error is returned
as-is. -/
def PasswordManager.HashPassword (pm : PasswordManager) (password : String)
    (salt : Nat) : Except String BcryptHash := do
  let _ ← pm.ValidatePassword password
  bcryptGenerateFromPassword password pm.saltRounds salt

/-- `PasswordManager.VerifyPassword`: `bcrypt.CompareHashAndPassword`;
`true` models a `nil` error. -/
def PasswordManager.VerifyPassword (_pm : PasswordManager)
    (password : String) (hash : BcryptHash) : Bool :=
  bcryptCompareHashAndPassword hash password

/-! ## Data model (`internal/models`) -/

/-- `models.User` (the fields the auth service reads/writes). -/
structure User where
  id : String
  email : String
  name : String
  role : String
  isActive : Bool
  deriving DecidableEq, Repr

/-- `models.Password`: the credential row (hashed secret) for a user. -/
structure PasswordRow where
  id : String
  userID : String
  hashedPassword : BcryptHash
  deriving DecidableEq, Repr

/-- `models.Account`: the provider-account row created alongside a user. -/
structure Account where
  id : String
  userID : String
  type : String
  provider : String
  providerAccountID : String
  deriving DecidableEq, Repr

/-- `models.Session`: one row per issued refresh token.  `isActive` is the
column's default `true`; the auth service never writes or reads it. -/
structure Session where
  id : String
  userID : String
  sessionToken : Token
  expiresAt : Nat
  isActive : Bool
  deriving DecidableEq, Repr

/-- The persistent state behind the four repositories the auth service
uses.  Repository reads are `find?` over the rows; creates append. -/
structure Store where
  users : List User
  passwords : List PasswordRow
  accounts : List Account
  sessions : List Session
  deriving DecidableEq, Repr

/-- The empty database. -/
def Store.empty : Store :=
  { users := [], passwords := [], accounts := [], sessions := [] }

/-- The distinct error values of `internal/services/auth_service.go`;
`internal msg` stands for the `fmt.Errorf`-wrapped repository/infrastructure
failures. -/
inductive AuthErr where
  | invalidCredentials
  | userNotFound
  | userNotActive
  | emailAlreadyExists
  | invalidToken
  | tokenExpired
  | insufficientRole
  | internal (msg : String)
  deriving DecidableEq, Repr

/-- Which fallible repository/infrastructure calls of `Register` fail in a
given run (each repository method returns `error` in Go; the model makes the
outcome explicit). -/
structure FailSpec where
  userCreate : Bool
  passwordCreate : Bool
  accountCreate : Bool
  commit : Bool
  sessionCreate : Bool
  deriving DecidableEq, Repr

/-- The run in which every repository call succeeds. -/
def FailSpec.none : FailSpec :=
  { userCreate := false, passwordCreate := false, accountCreate := false
    commit := false, sessionCreate := false }

/-- `models.RegisterRequest` (role is never read by `Register`). -/
structure RegisterRequest where
  name : String
  email : String
  password : String
  deriving Repr

/-- `models.LoginRequest`. -/
structure LoginRequest where
  email : String
  password : String
  deriving Repr

/-- `models.AuthResponse`. -/
structure AuthResponse where
  user : User
  accessToken : Token
  refreshToken : Token
  expiresIn : Nat
  deriving DecidableEq, Repr

/-- `models.RefreshTokenRequest`. -/
structure RefreshTokenRequest where
  refreshToken : Token
  deriving Repr

/-- `models.RefreshTokenResponse` (only the fields `RefreshToken` sets). -/
structure RefreshTokenResponse where
  accessToken : Token
  expiresIn : Nat
  deriving DecidableEq, Repr

/-- `models.ChangePasswordRequest`. -/
structure ChangePasswordRequest where
  currentPassword : String
  newPassword : String
  deriving Repr

/-! ## AuthService (`internal/services/auth_service.go`)

Each operation is a function from the store to (result, store).  The
nondeterministic ingredients of a run — freshly drawn UUIDs and token ids,
bcrypt salts, and `time.Now()` — are passed as explicit arguments.  A
`FailSpec` fixes which repository calls fail in the run. -/

/-- `repository.UserRepository.GetByEmail`. -/
def Store.getUserByEmail (st : Store) (email : String) : Option User :=
  st.users.find? (fun u => u.email = email)

/-- `repository.UserRepository.GetByID`. -/
def Store.getUserByID (st : Store) (id : String) : Option User :=
  st.users.find? (fun u => u.id = id)

/-- `repository.SessionRepository.GetByToken` (the token column has a unique
index; `find?` returns the row). -/
def Store.getSessionByToken (st : Store) (t : Token) : Option Session :=
  st.sessions.find? (fun s => s.sessionToken = t)

/-- `repository.SessionRepository.Delete` (by session id). -/
def Store.deleteSession (st : Store) (id : String) : Store :=
  { st with sessions := st.sessions.filter (fun s => ¬ s.id = id) }

/-- `AuthService.Register`.  The transaction `tx := s.db.Begin()` opens a
transaction on the service's own handle, but every repository call runs on
the repository's handle, outside `tx`; `tx.Rollback()`/`tx.Commit()` therefore
have no effect on the rows the repositories wrote, and are modelled as
no-ops on the store. -/
def Register (j : JWTManager) (st : Store) (req : RegisterRequest)
    (userId passwordId accountId sessionId jtiA jtiR : String) (salt : Nat)
    (now : Nat) (fail : FailSpec) : Except AuthErr AuthResponse × Store :=
  -- existingUser, _ := s.userRepo.GetByEmail(ctx, req.Email)
  if (st.getUserByEmail req.email).isSome then
    (.error .emailAlreadyExists, st)
  else
    -- tx := s.db.Begin()  (encloses no repository statement)
    let user : User :=
      { id := userId, email := req.email, name := req.name
        role := "CASHIER", isActive := true }
    if fail.userCreate then
      (.error (.internal "failed to create user"), st)  -- tx.Rollback()
    else
      let st := { st with users := st.users ++ [user] }
      -- hashedPassword, err := bcrypt.GenerateFromPassword(req.Password, bcrypt.DefaultCost)
      match bcryptGenerateFromPassword req.password bcryptDefaultCost salt with
      | .error _ =>
        (.error (.internal "failed to hash password"), st)  -- tx.Rollback()
      | .ok hashed =>
      let password : PasswordRow :=
        { id := passwordId, userID := user.id, hashedPassword := hashed }
      if fail.passwordCreate then
        (.error (.internal "failed to create password"), st)  -- tx.Rollback()
      else
        let st := { st with passwords := st.passwords ++ [password] }
        let account : Account :=
          { id := accountId, userID := user.id, type := "email"
            provider := "email", providerAccountID := req.email }
        if fail.accountCreate then
          (.error (.internal "failed to create account"), st)  -- tx.Rollback()
        else
          let st := { st with accounts := st.accounts ++ [account] }
          if fail.commit then
            (.error (.internal "failed to commit transaction"), st)
          else
            let accessToken :=
              j.GenerateAccessToken user.id user.email user.role user.name jtiA now
            let refreshToken := j.GenerateRefreshToken user.id user.email jtiR now
            let session : Session :=
              { id := sessionId, userID := user.id
                sessionToken := refreshToken
                expiresAt := now + 24 * 3600 * 30  -- time.Now().Add(24h*30)
                isActive := true }
            if fail.sessionCreate then
              (.error (.internal "failed to create session"), st)
            else
              let st := { st with sessions := st.sessions ++ [session] }
              (.ok { user := user, accessToken := accessToken
                     refreshToken := refreshToken, expiresIn := 3600 }, st)

/-- `AuthService.Login`. -/
def Login (j : JWTManager) (st : Store) (req : LoginRequest)
    (sessionId jtiA jtiR : String) (now : Nat) (fail : FailSpec) :
    Except AuthErr AuthResponse × Store :=
  match st.getUserByEmail req.email with
  | .none => (.error .invalidCredentials, st)  -- gorm.ErrRecordNotFound
  | .some user =>
    if ¬ user.isActive then (.error .userNotActive, st)
    else
      match st.passwords.find? (fun p => p.userID = user.id) with
      | .none => (.error .invalidCredentials, st)
      | .some password =>
        if ¬ bcryptCompareHashAndPassword password.hashedPassword req.password then
          (.error .invalidCredentials, st)
        else
          -- UpdateLastLogin failure is only logged; not modelled
          let accessToken :=
            j.GenerateAccessToken user.id user.email user.role user.name jtiA now
          let refreshToken := j.GenerateRefreshToken user.id user.email jtiR now
          let session : Session :=
            { id := sessionId, userID := user.id, sessionToken := refreshToken
              expiresAt := now + 24 * 3600 * 30, isActive := true }
          if fail.sessionCreate then
            (.error (.internal "failed to create session"), st)
          else
            (.ok { user := user, accessToken := accessToken
                   refreshToken := refreshToken, expiresIn := 3600 },
             { st with sessions := st.sessions ++ [session] })

/-- `AuthService.RefreshToken`. -/
def RefreshToken (j : JWTManager) (st : Store) (req : RefreshTokenRequest)
    (jtiA : String) (now : Nat) : Except AuthErr RefreshTokenResponse × Store :=
  match j.ValidateRefreshToken req.refreshToken now with
  | .error _ => (.error .invalidToken, st)
  | .ok claims =>
    -- uuid.Parse(claims.UserID): ids are opaque strings, parse is total
    match st.getUserByID claims.userID with
    | .none => (.error .userNotFound, st)
    | .some user =>
      if ¬ user.isActive then (.error .userNotActive, st)
      else
        match st.getSessionByToken req.refreshToken with
        | .none => (.error .invalidToken, st)
        | .some session =>
          if session.expiresAt < now then
            -- clean up the expired session, then fail
            (.error .tokenExpired, st.deleteSession session.id)
          else
            let accessToken :=
              j.GenerateAccessToken user.id user.email user.role user.name jtiA now
            (.ok { accessToken := accessToken, expiresIn := 3600 }, st)

/-- `AuthService.Logout`: look the session up by token; a missing session is
already-logged-out (success); otherwise delete it. -/
def Logout (st : Store) (refreshToken : Token) : Except AuthErr Unit × Store :=
  match st.getSessionByToken refreshToken with
  | .none => (.ok (), st)
  | .some session => (.ok (), st.deleteSession session.id)

/-- `AuthService.ChangePassword`: verify the current secret, overwrite the
hash, then delete every session of the user (`GetByUserID` then `Delete` per
row; in the in-memory model the read always succeeds, and per-row delete
errors are ignored by the Go code anyway). -/
def ChangePassword (st : Store) (userID : String)
    (req : ChangePasswordRequest) (salt : Nat) :
    Except AuthErr Unit × Store :=
  match st.passwords.find? (fun p => p.userID = userID) with
  | .none => (.error (.internal "failed to get current password"), st)
  | .some current =>
    if ¬ bcryptCompareHashAndPassword current.hashedPassword req.currentPassword then
      (.error .invalidCredentials, st)
    else
      match bcryptGenerateFromPassword req.newPassword bcryptDefaultCost salt with
      | .error _ => (.error (.internal "failed to hash new password"), st)
      | .ok newHash =>
      let st :=
        { st with passwords := st.passwords.map (fun p : PasswordRow =>
            if p.id = current.id then { p with hashedPassword := newHash } else p) }
      let toDelete :=
        (st.sessions.filter (fun s : Session => s.userID = userID)).map
          (fun s : Session => s.id)
      let st :=
        { st with sessions := st.sessions.filter (fun s : Session =>
            ¬ toDelete.contains s.id) }
      (.ok (), st)

/-- `AuthService.ValidateRole`: the Go role-hierarchy map; a role absent from
the map gets the zero value 0. -/
def roleLevel (role : String) : Nat :=
  if role = "CASHIER" then 1
  else if role = "MANAGER" then 2
  else if role = "ADMIN" then 3
  else 0

/-- `AuthService.ValidateRole userRole requiredRole`. -/
def ValidateRole (userRole requiredRole : String) : Except AuthErr Unit :=
  if roleLevel userRole < roleLevel requiredRole then .error .insufficientRole
  else .ok ()

/-! ## Concrete fixtures used by witnesses -/

/-- A JWT manager with 1-hour access TTL and 7-day refresh TTL. -/
def jEx : JWTManager := NewJWTManager "test-secret-key" 1 7

/-- A password manager with 12 salt rounds. -/
def pmEx : PasswordManager := NewPasswordManager 12

/-- A run in which the password-row insert fails and everything else
succeeds. -/
def failPasswordCreate : FailSpec :=
  { userCreate := false, passwordCreate := true, accountCreate := false
    commit := false, sessionCreate := false }

/-- A stored bcrypt digest for the secret "Abc12345!". -/
def hashEx : BcryptHash :=
  { cost := 10, salt := 0, digest := bcryptKey "Abc12345!" }

/-! ## Helper lemmas -/

/-- If the store holds no session for the presented refresh token, a refresh
cannot succeed (every branch of `RefreshToken` that reaches the session
lookup errors, and every earlier branch errors too). -/
theorem refresh_isOk_false_of_no_session (j : JWTManager) (st : Store)
    (req : RefreshTokenRequest) (jtiA : String) (now : Nat)
    (hnone : st.getSessionByToken req.refreshToken = none) :
    (RefreshToken j st req jtiA now).1.isOk = false := by
  unfold RefreshToken
  cases hval : j.ValidateRefreshToken req.refreshToken now with
  | error e => simp [Except.isOk, Except.toBool]
  | ok claims =>
    cases huser : st.getUserByID claims.userID with
    | none => simp [huser, Except.isOk, Except.toBool]
    | some u =>
      by_cases hact : u.isActive <;>
        simp [huser, hnone, hact, Except.isOk, Except.toBool]

/-- After `Logout st t`, no session for `t` remains in the store, provided
sessions are unique per token (the `uniqueIndex` on the token column). -/
theorem logout_no_session (st : Store) (t : Token)
    (huniq : ∀ s1 ∈ st.sessions, ∀ s2 ∈ st.sessions,
      s1.sessionToken = t → s2.sessionToken = t → s1 = s2) :
    ((Logout st t).2).getSessionByToken t = none := by
  unfold Logout
  cases hfind : st.getSessionByToken t with
  | none => simpa [Store.getSessionByToken] using hfind
  | some s =>
    have hs_mem : s ∈ st.sessions := List.mem_of_find?_eq_some hfind
    have hs_tok : s.sessionToken = t := by
      have := List.find?_some hfind
      simpa using this
    simp only [Store.getSessionByToken, Store.deleteSession,
      List.find?_eq_none, decide_eq_true_eq]
    intro x hx
    rcases List.mem_filter.mp hx with ⟨hx_mem, hx_id⟩
    intro hx_tok
    have hxs : x = s := huniq x hx_mem s hs_mem hx_tok hs_tok
    subst hxs
    simp at hx_id

/-! ## The claims -/

/-- Claim C10: `ValidateRole` ranks unknown roles 0 (the Go map's zero
value): a required role outside {CASHIER, MANAGER, ADMIN} is granted to every
held role, and a held role outside that set is denied every recognized
required role. -/
theorem c10_unknown_roles_rank_zero :
    (∀ held req : String, req ∉ ["CASHIER", "MANAGER", "ADMIN"] →
      ValidateRole held req = .ok ()) ∧
    (∀ held req : String, held ∉ ["CASHIER", "MANAGER", "ADMIN"] →
      req ∈ ["CASHIER", "MANAGER", "ADMIN"] →
      ValidateRole held req = .error .insufficientRole) := by
  constructor
  · intro held req h
    simp only [List.mem_cons, List.not_mem_nil, or_false, not_or] at h
    obtain ⟨h1, h2, h3⟩ := h
    have hr : roleLevel req = 0 := by simp [roleLevel, h1, h2, h3]
    simp [ValidateRole, hr]
  · intro held req hheld hreq
    simp only [List.mem_cons, List.not_mem_nil, or_false, not_or] at hheld
    obtain ⟨h1, h2, h3⟩ := hheld
    have hh : roleLevel held = 0 := by simp [roleLevel, h1, h2, h3]
    have hr : 1 ≤ roleLevel req := by
      simp only [List.mem_cons, List.not_mem_nil, or_false] at hreq
      rcases hreq with h | h | h <;> subst h <;> simp [roleLevel]
    simp only [ValidateRole, hh]
    rw [if_pos (by omega)]

/-- Witness for C10 at concrete roles: requiring the unknown role
"SUPERVISOR" is granted even to the unknown held role "AUDITOR", while
"AUDITOR" is denied the recognized required role "MANAGER". -/
theorem c10_unknown_roles_rank_zero_witness :
    ValidateRole "AUDITOR" "SUPERVISOR" = .ok () ∧
    ValidateRole "AUDITOR" "MANAGER" = .error .insufficientRole :=
  ⟨c10_unknown_roles_rank_zero.1 "AUDITOR" "SUPERVISOR" (by decide),
   c10_unknown_roles_rank_zero.2 "AUDITOR" "MANAGER" (by decide) (by decide)⟩

/-- Claim C7: `Login` with an unknown email and `Login` with a known, active
email but a wrong secret both return the very same error value
`ErrInvalidCredentials`, so the two runs are indistinguishable to a caller
probing for account existence. -/
theorem c7_login_enumeration_resistant (j : JWTManager) (st : Store)
    (unknownEmail wrongSecret : String) (u : User) (pw : PasswordRow)
    (sid jtiA jtiR : String) (now : Nat) (fail : FailSpec)
    (hunknown : st.getUserByEmail unknownEmail = none)
    (hu : st.getUserByEmail u.email = some u)
    (hactive : u.isActive = true)
    (hpw : st.passwords.find? (fun p => p.userID = u.id) = some pw)
    (hwrong : bcryptCompareHashAndPassword pw.hashedPassword wrongSecret = false) :
    (Login j st ⟨unknownEmail, wrongSecret⟩ sid jtiA jtiR now fail).1 =
      .error .invalidCredentials ∧
    (Login j st ⟨u.email, wrongSecret⟩ sid jtiA jtiR now fail).1 =
      .error .invalidCredentials := by
  constructor
  · simp [Login, hunknown]
  · simp [Login, hu, hactive, hpw, hwrong]

/-- Witness for C7: a one-user store, probed with a missing email and with
the real email but the wrong password. -/
theorem c7_login_enumeration_resistant_witness :
    (Login jEx
      { users := [{ id := "u1", email := "a@x.com", name := "Ann",
                    role := "CASHIER", isActive := true }]
        passwords := [{ id := "p1", userID := "u1",
                        hashedPassword := hashEx }]
        accounts := [], sessions := [] }
      ⟨"b@x.com", "Nope1234!"⟩ "s1" "jA" "jR" 50 FailSpec.none).1 =
      .error .invalidCredentials ∧
    (Login jEx
      { users := [{ id := "u1", email := "a@x.com", name := "Ann",
                    role := "CASHIER", isActive := true }]
        passwords := [{ id := "p1", userID := "u1",
                        hashedPassword := hashEx }]
        accounts := [], sessions := [] }
      ⟨"a@x.com", "Nope1234!"⟩ "s1" "jA" "jR" 50 FailSpec.none).1 =
      .error .invalidCredentials :=
  c7_login_enumeration_resistant jEx _ "b@x.com" "Nope1234!"
    { id := "u1", email := "a@x.com", name := "Ann", role := "CASHIER",
      isActive := true }
    { id := "p1", userID := "u1",
      hashedPassword := hashEx }
    "s1" "jA" "jR" 50 FailSpec.none
    (by decide) (by decide) (by decide) (by decide) (by decide)

/-- Claim C4 (code bug): the strength policy rejects "weakpass" (no
uppercase, digit or symbol), yet `Register` — which hashes with bcrypt
directly and never consults `PasswordManager.ValidatePassword` — accepts it
and creates the user, credential, account and session rows. -/
theorem c4_register_accepts_weak_secret :
    pmEx.ValidatePassword "weakpass" =
      .error "password must contain at least one uppercase letter" ∧
    (Register jEx Store.empty ⟨"Ann", "a@x.com", "weakpass"⟩
        "u1" "p1" "a1" "s1" "jA" "jR" 0 100 FailSpec.none).1.isOk = true ∧
    (Register jEx Store.empty ⟨"Ann", "a@x.com", "weakpass"⟩
        "u1" "p1" "a1" "s1" "jA" "jR" 0 100 FailSpec.none).2.users.length = 1 ∧
    (Register jEx Store.empty ⟨"Ann", "a@x.com", "weakpass"⟩
        "u1" "p1" "a1" "s1" "jA" "jR" 0 100 FailSpec.none).2.passwords.length = 1 ∧
    (Register jEx Store.empty ⟨"Ann", "a@x.com", "weakpass"⟩
        "u1" "p1" "a1" "s1" "jA" "jR" 0 100 FailSpec.none).2.sessions.length = 1 := by
  refine ⟨rfl, ?_, ?_, ?_, ?_⟩ <;> decide

/-- Claim C2 (code bug): `Register` is not all-or-nothing.  The transaction
it begins encloses none of the repository writes, so when the password-row
insert fails after the user insert succeeded, the rollback undoes nothing:
the run errors but the user row survives with no credential row — an
Identity without its Credential. -/
theorem c2_register_not_atomic :
    (Register jEx Store.empty ⟨"Ann", "a@x.com", "Abc12345!"⟩
        "u1" "p1" "a1" "s1" "jA" "jR" 0 100 failPasswordCreate).1.isOk = false ∧
    (Register jEx Store.empty ⟨"Ann", "a@x.com", "Abc12345!"⟩
        "u1" "p1" "a1" "s1" "jA" "jR" 0 100 failPasswordCreate).2.users =
      [{ id := "u1", email := "a@x.com", name := "Ann", role := "CASHIER",
         isActive := true }] ∧
    (Register jEx Store.empty ⟨"Ann", "a@x.com", "Abc12345!"⟩
        "u1" "p1" "a1" "s1" "jA" "jR" 0 100 failPasswordCreate).2.passwords = [] := by
  refine ⟨?_, ?_, ?_⟩ <;> decide

/-- Claim C9: a successful `Register` (fresh email, password within bcrypt's
72-byte limit so that hashing succeeds) and a successful `Login` each create
a session expiring exactly 30 days (2592000 s) after "now" and report
`ExpiresIn = 3600`, whatever access/refresh TTLs the `JWTManager` was
configured with. -/
theorem c9_session_expiry_hardcoded (j : JWTManager) :
    (∀ (st : Store) (req : RegisterRequest)
        (userId passwordId accountId sessionId jtiA jtiR : String)
        (salt now : Nat),
      st.getUserByEmail req.email = none →
      req.password.length ≤ 72 →
      ∃ resp sess,
        Register j st req userId passwordId accountId sessionId jtiA jtiR
            salt now FailSpec.none =
          (.ok resp, { st with
            users := st.users ++ [resp.user]
            passwords := st.passwords ++
              [{ id := passwordId, userID := userId
                 hashedPassword := { cost := bcryptDefaultCost, salt := salt
                                     digest := bcryptKey req.password } }]
            accounts := st.accounts ++
              [{ id := accountId, userID := userId, type := "email"
                 provider := "email", providerAccountID := req.email }]
            sessions := st.sessions ++ [sess] }) ∧
        resp.expiresIn = 3600 ∧ sess.expiresAt = now + 2592000) ∧
    (∀ (st : Store) (req : LoginRequest) (u : User) (pw : PasswordRow)
        (sessionId jtiA jtiR : String) (now : Nat),
      st.getUserByEmail req.email = some u →
      u.isActive = true →
      st.passwords.find? (fun p => p.userID = u.id) = some pw →
      bcryptCompareHashAndPassword pw.hashedPassword req.password = true →
      ∃ resp sess,
        Login j st req sessionId jtiA jtiR now FailSpec.none =
          (.ok resp, { st with sessions := st.sessions ++ [sess] }) ∧
        resp.expiresIn = 3600 ∧ sess.expiresAt = now + 2592000) := by
  constructor
  · intro st req userId passwordId accountId sessionId jtiA jtiR salt now hfree
      hpw72
    have hbc : bcryptGenerateFromPassword req.password bcryptDefaultCost salt =
        .ok { cost := bcryptDefaultCost, salt := salt
              digest := bcryptKey req.password } := by
      unfold bcryptGenerateFromPassword
      rw [if_neg (by omega)]
    refine ⟨{ user := { id := userId, email := req.email, name := req.name,
                        role := "CASHIER", isActive := true }
              accessToken :=
                j.GenerateAccessToken userId req.email "CASHIER" req.name jtiA now
              refreshToken := j.GenerateRefreshToken userId req.email jtiR now
              expiresIn := 3600 },
            { id := sessionId, userID := userId
              sessionToken := j.GenerateRefreshToken userId req.email jtiR now
              expiresAt := now + 24 * 3600 * 30, isActive := true },
            ?_, rfl, by norm_num⟩
    simp only [Register, hfree, FailSpec.none, hbc]
    rfl
  · intro st req u pw sessionId jtiA jtiR now hu hactive hpw hverify
    refine ⟨{ user := u
              accessToken := j.GenerateAccessToken u.id u.email u.role u.name jtiA now
              refreshToken := j.GenerateRefreshToken u.id u.email jtiR now
              expiresIn := 3600 },
            { id := sessionId, userID := u.id
              sessionToken := j.GenerateRefreshToken u.id u.email jtiR now
              expiresAt := now + 24 * 3600 * 30, isActive := true },
            ?_, rfl, by norm_num⟩
    simp only [Login, hu, hactive, hpw, hverify, FailSpec.none]
    rfl

/-- Witness for C9: with a JWT manager configured for a 99-hour access TTL
and 1-day refresh TTL, registering into an empty store and logging in
afterwards both create 30-day sessions and report 3600. -/
theorem c9_session_expiry_hardcoded_witness :
    (∃ resp sess,
      Register (NewJWTManager "k" 99 1) Store.empty ⟨"Ann", "a@x.com", "Abc12345!"⟩
          "u1" "p1" "a1" "s1" "jA" "jR" 0 100 FailSpec.none =
        (.ok resp, { Store.empty with
          users := Store.empty.users ++ [resp.user]
          passwords := Store.empty.passwords ++
            [{ id := "p1", userID := "u1"
               hashedPassword := { cost := bcryptDefaultCost, salt := 0
                                   digest := bcryptKey "Abc12345!" } }]
          accounts := Store.empty.accounts ++
            [{ id := "a1", userID := "u1", type := "email"
               provider := "email", providerAccountID := "a@x.com" }]
          sessions := Store.empty.sessions ++ [sess] }) ∧
      resp.expiresIn = 3600 ∧ sess.expiresAt = 100 + 2592000) :=
  (c9_session_expiry_hardcoded (NewJWTManager "k" 99 1)).1 Store.empty
    ⟨"Ann", "a@x.com", "Abc12345!"⟩ "u1" "p1" "a1" "s1" "jA" "jR" 0 100
    (by decide) (by decide)

/-- On a token honestly signed with the manager's own key, `ValidateToken`
reduces to the two time checks (the manual strict check can never fire once
the library check `now < exp` has passed). -/
theorem validateToken_signed (j : JWTManager) (c : Claims) (now : Nat) :
    j.ValidateToken { claims := c, tag := (j.secretKey, c) } now =
      (if ¬ now < c.expiresAt then .error .libExpired
       else if now < c.notBefore then .error .notValidYet
       else .ok c) := by
  unfold JWTManager.ValidateToken
  rw [if_neg (by simp)]
  by_cases h1 : now < c.expiresAt
  · by_cases h2 : now < c.notBefore
    · simp [h1, h2]
    · have h3 : ¬ c.expiresAt < now := by omega
      simp [h1, h2, h3]
  · simp [h1]

/-- Claim C5: an `issueAccess` token always fails refresh-type validation,
succeeds access-type validation strictly before its expiry instant (and at
or after its not-before), always fails access-type validation from its
expiry instant on, and an `issueRefresh` token always fails access-type
validation. -/
theorem c5_token_type_separation (j : JWTManager)
    (userID email role name tokenID : String) (t0 : Nat) :
    (∀ now, (j.ValidateRefreshToken
        (j.GenerateAccessToken userID email role name tokenID t0) now).isOk
          = false) ∧
    (∀ now, t0 ≤ now → now < t0 + j.accessTokenTTL →
      j.ValidateAccessToken
          (j.GenerateAccessToken userID email role name tokenID t0) now =
        .ok (j.GenerateAccessToken userID email role name tokenID t0).claims) ∧
    (∀ now, t0 + j.accessTokenTTL ≤ now →
      (j.ValidateAccessToken
          (j.GenerateAccessToken userID email role name tokenID t0) now).isOk
        = false) ∧
    (∀ (userID2 email2 tokenID2 : String) (t1 now : Nat),
      (j.ValidateAccessToken
          (j.GenerateRefreshToken userID2 email2 tokenID2 t1) now).isOk
        = false) := by
  have hacc : j.GenerateAccessToken userID email role name tokenID t0 =
      { claims := { userID := userID, email := email, role := role, name := name
                    tokenType := "access", jti := tokenID
                    expiresAt := t0 + j.accessTokenTTL, issuedAt := t0
                    notBefore := t0 }
        tag := (j.secretKey,
          { userID := userID, email := email, role := role, name := name
            tokenType := "access", jti := tokenID
            expiresAt := t0 + j.accessTokenTTL, issuedAt := t0
            notBefore := t0 }) } := rfl
  refine ⟨?_, ?_, ?_, ?_⟩
  · intro now
    rw [JWTManager.ValidateRefreshToken, hacc, validateToken_signed]
    by_cases h1 : now < t0 + j.accessTokenTTL
    · by_cases h2 : now < t0 <;>
        simp [h1, h2, bind, Except.bind, pure, Except.pure,
          Except.isOk, Except.toBool]
    · simp [h1, bind, Except.bind, Except.isOk, Except.toBool]
  · intro now hlo hhi
    rw [JWTManager.ValidateAccessToken, hacc, validateToken_signed]
    have h2 : ¬ now < t0 := by omega
    simp [hhi, h2, bind, Except.bind, pure, Except.pure]
  · intro now hexp
    rw [JWTManager.ValidateAccessToken, hacc, validateToken_signed]
    have h1 : ¬ now < t0 + j.accessTokenTTL := by omega
    simp [h1, bind, Except.bind, Except.isOk, Except.toBool]
  · intro userID2 email2 tokenID2 t1 now
    rw [JWTManager.ValidateAccessToken,
      show j.GenerateRefreshToken userID2 email2 tokenID2 t1 =
        { claims := { userID := userID2, email := email2, role := "", name := ""
                      tokenType := "refresh", jti := tokenID2
                      expiresAt := t1 + j.refreshTokenTTL, issuedAt := t1
                      notBefore := t1 }
          tag := (j.secretKey,
            { userID := userID2, email := email2, role := "", name := ""
              tokenType := "refresh", jti := tokenID2
              expiresAt := t1 + j.refreshTokenTTL, issuedAt := t1
              notBefore := t1 }) } from rfl,
      validateToken_signed]
    by_cases h1 : now < t1 + j.refreshTokenTTL
    · by_cases h2 : now < t1 <;>
        simp [h1, h2, bind, Except.bind, pure, Except.pure,
          Except.isOk, Except.toBool]
    · simp [h1, bind, Except.bind, Except.isOk, Except.toBool]

/-- Witness for C5 with a concrete manager and token: before expiry the
access token passes access-type validation and fails refresh-type
validation; at expiry it fails; a refresh token fails access-type
validation. -/
theorem c5_token_type_separation_witness :
    (jEx.ValidateRefreshToken
        (jEx.GenerateAccessToken "u1" "a@x.com" "CASHIER" "Ann" "jA" 100) 200).isOk
      = false ∧
    jEx.ValidateAccessToken
        (jEx.GenerateAccessToken "u1" "a@x.com" "CASHIER" "Ann" "jA" 100) 200 =
      .ok (jEx.GenerateAccessToken "u1" "a@x.com" "CASHIER" "Ann" "jA" 100).claims ∧
    (jEx.ValidateAccessToken
        (jEx.GenerateAccessToken "u1" "a@x.com" "CASHIER" "Ann" "jA" 100) 3700).isOk
      = false ∧
    (jEx.ValidateAccessToken
        (jEx.GenerateRefreshToken "u1" "a@x.com" "jR" 100) 200).isOk = false :=
  ⟨(c5_token_type_separation jEx "u1" "a@x.com" "CASHIER" "Ann" "jA" 100).1 200,
   (c5_token_type_separation jEx "u1" "a@x.com" "CASHIER" "Ann" "jA" 100).2.1 200
     (by norm_num) (by norm_num [jEx, NewJWTManager]),
   (c5_token_type_separation jEx "u1" "a@x.com" "CASHIER" "Ann" "jA" 100).2.2.1 3700
     (by norm_num [jEx, NewJWTManager]),
   (c5_token_type_separation jEx "u1" "a@x.com" "CASHIER" "Ann" "jA" 100).2.2.2
     "u1" "a@x.com" "jR" 100 200⟩

/-- Claim C6: expiry is rejected whenever now ≥ expires-at (the exact
instant included) even under a valid signature; an invalid signature is
reported before any expiry condition; and in the typed wrappers an expired
token is reported expired, not wrong-typed, so the type check comes last. -/
theorem c6_expiry_and_check_order (j : JWTManager) (t : Token) (now : Nat) :
    (t.tag = (j.secretKey, t.claims) → t.claims.expiresAt ≤ now →
      j.ValidateToken t now = .error .libExpired) ∧
    (t.tag ≠ (j.secretKey, t.claims) →
      j.ValidateToken t now = .error .invalidSignature) ∧
    (t.tag = (j.secretKey, t.claims) → t.claims.expiresAt ≤ now →
      j.ValidateAccessToken t now = .error .libExpired ∧
      j.ValidateRefreshToken t now = .error .libExpired) := by
  refine ⟨?_, ?_, ?_⟩
  · intro hsig hexp
    unfold JWTManager.ValidateToken
    rw [if_neg (by simp [hsig]), if_pos (by omega)]
  · intro hsig
    unfold JWTManager.ValidateToken
    rw [if_pos hsig]
  · intro hsig hexp
    have h : j.ValidateToken t now = .error .libExpired := by
      unfold JWTManager.ValidateToken
      rw [if_neg (by simp [hsig]), if_pos (by omega)]
    constructor
    · rw [JWTManager.ValidateAccessToken, h]; rfl
    · rw [JWTManager.ValidateRefreshToken, h]; rfl

/-- Witness for C6: a token signed with the right key but already expired at
now = expires-at is rejected as expired by all three validators, and the same
token with a corrupted tag is rejected for its signature. -/
theorem c6_expiry_and_check_order_witness :
    (jEx.ValidateToken
      { claims := (jEx.GenerateAccessToken "u1" "a@x.com" "CASHIER" "Ann" "jA" 0).claims
        tag := ("test-secret-key",
          (jEx.GenerateAccessToken "u1" "a@x.com" "CASHIER" "Ann" "jA" 0).claims) }
      3600 = .error .libExpired) ∧
    (jEx.ValidateToken
      { claims := (jEx.GenerateAccessToken "u1" "a@x.com" "CASHIER" "Ann" "jA" 0).claims
        tag := ("wrong-key",
          (jEx.GenerateAccessToken "u1" "a@x.com" "CASHIER" "Ann" "jA" 0).claims) }
      3600 = .error .invalidSignature) :=
  ⟨(c6_expiry_and_check_order jEx _ 3600).1 (by decide)
     (by norm_num [jEx, NewJWTManager, JWTManager.GenerateAccessToken]),
   (c6_expiry_and_check_order jEx _ 3600).2.1 (by decide)⟩

/-- Claim C1: once a logout has revoked the session behind a refresh token
(sessions being unique per token, per the token column's unique index), a
refresh with that token fails with `ErrInvalidToken` — even though the token
itself still validates as a refresh token (valid signature, unexpired) and
its user still exists and is active. -/
theorem c1_refresh_rejected_after_logout (j : JWTManager) (st : Store)
    (t : Token) (jtiA : String) (now : Nat) (claims : Claims) (u : User)
    (huniq : ∀ s1 ∈ st.sessions, ∀ s2 ∈ st.sessions,
      s1.sessionToken = t → s2.sessionToken = t → s1 = s2)
    (hval : j.ValidateRefreshToken t now = .ok claims)
    (huser : ((Logout st t).2).getUserByID claims.userID = some u)
    (hactive : u.isActive = true) :
    (RefreshToken j (Logout st t).2 ⟨t⟩ jtiA now).1 = .error .invalidToken := by
  have hnone := logout_no_session st t huniq
  simp [RefreshToken, hval, huser, hactive, hnone]

/-- A refresh token and the store of one registered user holding its live
session, for the C1 witness. -/
def tEx : Token := jEx.GenerateRefreshToken "u1" "a@x.com" "jR" 100

/-- One active user with one live session for `tEx`. -/
def stEx : Store :=
  { users := [{ id := "u1", email := "a@x.com", name := "Ann",
                role := "CASHIER", isActive := true }]
    passwords := []
    accounts := []
    sessions := [{ id := "s1", userID := "u1", sessionToken := tEx,
                   expiresAt := 100 + 2592000, isActive := true }] }

/-- Witness for C1: in the one-user store, logging out and then refreshing
with the still-valid, unexpired refresh token fails with `ErrInvalidToken`. -/
theorem c1_refresh_rejected_after_logout_witness :
    (RefreshToken jEx (Logout stEx tEx).2 ⟨tEx⟩ "jA" 200).1 =
      .error .invalidToken :=
  c1_refresh_rejected_after_logout jEx stEx tEx "jA" 200 tEx.claims
    { id := "u1", email := "a@x.com", name := "Ann", role := "CASHIER",
      isActive := true }
    (by decide) rfl rfl rfl

/-- Claim C3: a successful `ChangePassword` deletes every session of the
identity, so a refresh with any refresh token issued to that identity before
the change (its sessions all belong to that identity) cannot succeed. -/
theorem c3_change_password_invalidates_refresh (j : JWTManager) (st : Store)
    (userID : String) (req : ChangePasswordRequest) (salt : Nat) (st2 : Store)
    (t : Token) (jtiA : String) (now : Nat)
    (hchange : ChangePassword st userID req salt = (.ok (), st2))
    (howner : ∀ s ∈ st.sessions, s.sessionToken = t → s.userID = userID) :
    (RefreshToken j st2 ⟨t⟩ jtiA now).1.isOk = false := by
  apply refresh_isOk_false_of_no_session
  unfold ChangePassword at hchange
  split at hchange
  · simp at hchange
  · split at hchange
    · simp at hchange
    · split at hchange
      · simp at hchange
      · simp only [Prod.mk.injEq] at hchange
        obtain ⟨-, hst2⟩ := hchange
        subst hst2
        simp only [Store.getSessionByToken, List.find?_eq_none,
          decide_eq_true_eq]
        intro x hx
        rcases List.mem_filter.mp hx with ⟨hx_mem, hx_keep⟩
        intro hx_tok
        have hx_uid : x.userID = userID := howner x hx_mem hx_tok
        have hx_del : x.id ∈
            ((st.sessions.filter (fun s : Session => s.userID = userID)).map
              (fun s : Session => s.id)) :=
          List.mem_map.mpr ⟨x, List.mem_filter.mpr ⟨hx_mem, by simp [hx_uid]⟩, rfl⟩
        exact of_decide_eq_true hx_keep (by simp [List.contains, hx_del])

/-- `stEx` extended with the credential row for its user, for the C3
witness. -/
def stEx2 : Store :=
  { users := stEx.users
    passwords := [{ id := "p1", userID := "u1"
                    hashedPassword := hashEx }]
    accounts := stEx.accounts
    sessions := stEx.sessions }

/-- Witness for C3: in a store holding the user's credential and the live
session for `tEx`, changing the password succeeds, after which refreshing
with `tEx` fails. -/
theorem c3_change_password_invalidates_refresh_witness :
    (RefreshToken jEx
      (ChangePassword stEx2 "u1" ⟨"Abc12345!", "Xyz98765?"⟩ 1).2
      ⟨tEx⟩ "jA" 200).1.isOk = false :=
  c3_change_password_invalidates_refresh jEx stEx2
    "u1" ⟨"Abc12345!", "Xyz98765?"⟩ 1
    (ChangePassword stEx2 "u1" ⟨"Abc12345!", "Xyz98765?"⟩ 1).2
    tEx "jA" 200 rfl (by decide)

/-- Two strings with the same character list are the same string. -/
theorem toList_injective {a b : String} (h : a.toList = b.toList) : a = b := by
  cases a; cases b
  exact congrArg String.mk (by simpa [String.toList] using h)

/-- A policy-valid 73-character secret (the policy cap is 128). -/
def sLong : String := "Aa1!" ++ String.mk (List.replicate 69 'a')

/-- Counterexample to claim C8: the strength policy accepts the 73-character
secret `sLong`, but hashing it produces no hash at all —
`bcrypt.GenerateFromPassword` fails with `ErrPasswordTooLong` for passwords
over 72 bytes — so `verify(S, hash(S))` cannot be true for every policy-valid
secret up to 128 characters. -/
theorem c8_hash_fails_beyond_72 :
    pmEx.ValidatePassword sLong = .ok () ∧
    sLong.length = 73 ∧
    pmEx.HashPassword sLong 7 =
      .error "bcrypt: password length exceeds 72 bytes" :=
  ⟨rfl, by decide, rfl⟩

/-- Claim C8 as amended: for policy-valid secrets of at most 72 bytes,
hashing succeeds and the round-trip law holds — `verify(S, hash(S))` is
true, and `verify(S2, hash(S))` is false for every different secret `S2` of
at most 72 bytes; for longer policy-valid secrets `hash` itself fails with
bcrypt's password-length error. -/
theorem c8_verify_roundtrip_within_72 (pm : PasswordManager) (S S2 : String)
    (salt : Nat)
    (hpol : pm.ValidatePassword S = .ok ())
    (hlen : S.length ≤ 72)
    (hlen2 : S2.length ≤ 72) (hne : S2 ≠ S) :
    ∃ h, pm.HashPassword S salt = .ok h ∧
      pm.VerifyPassword S h = true ∧
      pm.VerifyPassword S2 h = false := by
  have h1 : S.toList.length ≤ 72 := hlen
  have hkS : bcryptKey S = S.toList := List.take_of_length_le h1
  have h2 : S2.toList.length ≤ 72 := hlen2
  have hkS2 : bcryptKey S2 = S2.toList := List.take_of_length_le h2
  have hne2 : ¬ S.toList = S2.toList := fun hh =>
    hne (toList_injective hh.symm)
  refine ⟨{ cost := pm.saltRounds, salt := salt, digest := bcryptKey S },
    ?_, ?_, ?_⟩
  · unfold PasswordManager.HashPassword
    rw [hpol]
    simp only [bind, Except.bind]
    unfold bcryptGenerateFromPassword
    rw [if_neg (by omega)]
  · unfold PasswordManager.VerifyPassword bcryptCompareHashAndPassword
    dsimp only
    exact decide_eq_true rfl
  · unfold PasswordManager.VerifyPassword bcryptCompareHashAndPassword
    dsimp only
    rw [hkS, hkS2]
    exact decide_eq_false hne2

/-- Witness for the amended C8 at a concrete short secret: hashing succeeds,
the right secret verifies against the hash, a wrong one does not. -/
theorem c8_verify_roundtrip_within_72_witness :
    ∃ h, pmEx.HashPassword "Abc12345!" 5 = .ok h ∧
      pmEx.VerifyPassword "Abc12345!" h = true ∧
      pmEx.VerifyPassword "Abc12345?" h = false :=
  c8_verify_roundtrip_within_72 pmEx "Abc12345!" "Abc12345?" 5 rfl
    (by decide) (by decide) (by decide)

end Cashly
